import Mathlib

/-!
The waypoint_replanner node of waypoint_maker.

Shallow embedding of `waypoint_replanner_node.cpp`: the node keeps the last
received LaneArray, two mode flags and an engine object, and its two callbacks
publish the (possibly replanned) LaneArray on one or two topics.

* C++ `double` values are only stored, compared and handed on by the node, so
  they are carried as rationals.
* Publishing is modelled by returning the list of messages sent, in order.
* `ros::master::getNodes` is an input of every callback (`node_list`).
* The engine class `WaypointReplanner` is declared in `waypoint_replanner.h`,
  which is not part of the sources at hand: the node is embedded over an
  arbitrary engine, whose member functions thread the engine state.
* The namespace `Raising` embeds `replan`, `publishLaneArray` and `laneCallback`
  once more over an engine call that may raise an exception; over a call that
  always returns the two embeddings agree.
-/

set_option autoImplicit false

namespace waypoint_maker

/-! ## Messages -/

/-- Modelled from the spec: a waypoint is a pose, a scalar target velocity and
a flag marking it as replanned (the message declaration of autoware_msgs is
not among the sources). -/
structure Waypoint where
  x : ℚ
  y : ℚ
  yaw : ℚ
  velocity : ℚ
  change_flag : Bool
deriving DecidableEq

/-- Modelled from the spec: a lane is an ordered sequence of waypoints (the
message declaration of autoware_msgs is not among the sources). -/
structure Lane where
  waypoints : List Waypoint
deriving DecidableEq

/-- The message `autoware_msgs::LaneArray`, of which the node reads and writes
the field `lanes` only. The lane type is left open: the node never looks inside
a lane. -/
structure LaneArray (L : Type) where
  lanes : List L
deriving DecidableEq

/-- The struct `WaypointReplannerConfig`, with the fields the constructor of the
node fills in (lines 56-72). -/
structure WaypointReplannerConfig where
  velocity_max : ℚ
  velocity_min : ℚ
  accel_limit : ℚ
  decel_limit : ℚ
  radius_thresh : ℚ
  radius_min : ℚ
  resample_mode : Bool
  resample_interval : ℚ
  replan_curve_mode : Bool
  replan_endpoint_mode : Bool
  overwrite_vmax_mode : Bool
  velocity_offset : ℚ
  end_point_offset : ℚ
  braking_distance : ℚ
deriving DecidableEq

/-- The message `autoware_config_msgs::ConfigWaypointReplanner`. The node reads
`replanning_mode` and `realtime_tuning_mode` (lines 118-119) and hands the whole
message to the engine. Modelled from the spec: its remaining fields are the
parameter set of the Config (the message declaration is not among the
sources). -/
structure ConfigWaypointReplanner where
  replanning_mode : Bool
  realtime_tuning_mode : Bool
  velocity_max : ℚ
  velocity_min : ℚ
  accel_limit : ℚ
  decel_limit : ℚ
  radius_thresh : ℚ
  radius_min : ℚ
  resample_mode : Bool
  resample_interval : ℚ
  replan_curve_mode : Bool
  replan_endpoint_mode : Bool
  overwrite_vmax_mode : Bool
  velocity_offset : ℚ
  end_point_offset : ℚ
  braking_distance : ℚ
deriving DecidableEq

/-! ## The engine, as the node uses it -/

/-- The interface of the engine class `WaypointReplanner` as the node calls it.
`R` is the state of the engine object, `L` the lane type. Every member function
is a C++ non-const method, so it takes the engine state and returns the new one;
`replanLaneWaypointVel` receives the lane by reference and returns nothing, so
it yields the new engine state and the lane it leaves behind.
`kmph2mps` is the free function of the same name used at lines 71-72. -/
structure WaypointReplanner (R L : Type) where
  fresh : R
  kmph2mps : ℚ → ℚ
  updateConfig : R → WaypointReplannerConfig → R
  initParameter : R → ConfigWaypointReplanner → R
  replanLaneWaypointVel : R → L → R × L

/-! ## The node -/

/-- The data members of `WaypointReplannerNode` that carry state (lines 32-34).
The node handles, publishers and subscribers are fixed at construction. -/
structure WaypointReplannerNode (R L : Type) where
  replanning_mode_ : Bool
  realtime_tuning_mode_ : Bool
  replanner_ : R
  lane_array_ : LaneArray L

/-- The private parameters the constructor looks up; `none` is a parameter that
is not set on the parameter server. -/
structure NodeParams where
  replanning_mode : Option Bool
  realtime_tuning_mode : Option Bool
  velocity_max : Option ℚ
  velocity_min : Option ℚ
  accel_limit : Option ℚ
  decel_limit : Option ℚ
  radius_thresh : Option ℚ
  radius_min : Option ℚ
  resample_mode : Option Bool
  resample_interval : Option ℚ
  replan_curve_mode : Option Bool
  replan_endpoint_mode : Option Bool
  overwrite_vmax_mode : Option Bool
  velocity_offset : Option ℚ
  end_point_offset : Option ℚ
  braking_distance : Option ℚ

/-- The call `pnh_.param<T>(name, out, default)`: the value on the parameter
server, or the default when the parameter is not set. -/
def param {α : Type} (value : Option α) (dflt : α) : α :=
  match value with
  | some v => v
  | none => dflt

/-- A parameter server on which nothing is set. -/
def noParams : NodeParams :=
  { replanning_mode := none, realtime_tuning_mode := none, velocity_max := none,
    velocity_min := none, accel_limit := none, decel_limit := none,
    radius_thresh := none, radius_min := none, resample_mode := none,
    resample_interval := none, replan_curve_mode := none,
    replan_endpoint_mode := none, overwrite_vmax_mode := none,
    velocity_offset := none, end_point_offset := none, braking_distance := none }

/-- A message sent on a topic. -/
structure Publication (L : Type) where
  topic : String
  msg : LaneArray L
deriving DecidableEq

/-- The map `lane_pub_` (lines 45-46): the topic each publisher advertises. -/
def lane_pub_ (key : String) : String :=
  if key = "with_decision" then "/based/lane_waypoints_array"
  else if key = "without_decision" then "/lane_waypoints_array"
  else ""

/-- The call `lane_pub_[key].publish(array)`. -/
def publish {L : Type} (key : String) (array : LaneArray L) : Publication L :=
  { topic := lane_pub_ key, msg := array }

/-- The constructor `WaypointReplannerNode::WaypointReplannerNode` (lines 43-75). -/
def WaypointReplannerNode.construct {R L : Type} (E : WaypointReplanner R L)
    (p : NodeParams) : WaypointReplannerNode R L :=
  let velocity_max_kph := param p.velocity_max 0
  let velocity_min_kph := param p.velocity_min 0
  let temp_config : WaypointReplannerConfig :=
    { accel_limit := param p.accel_limit 0
      decel_limit := param p.decel_limit 0
      radius_thresh := param p.radius_thresh 0
      radius_min := param p.radius_min 0
      resample_mode := param p.resample_mode false
      resample_interval := param p.resample_interval 0
      replan_curve_mode := param p.replan_curve_mode false
      replan_endpoint_mode := param p.replan_endpoint_mode false
      overwrite_vmax_mode := param p.overwrite_vmax_mode false
      velocity_offset := param p.velocity_offset 0
      end_point_offset := param p.end_point_offset 0
      braking_distance := param p.braking_distance 0
      velocity_max := E.kmph2mps velocity_max_kph
      velocity_min := E.kmph2mps velocity_min_kph }
  { replanning_mode_ := param p.replanning_mode false
    realtime_tuning_mode_ := param p.realtime_tuning_mode true
    replanner_ := E.updateConfig E.fresh temp_config
    lane_array_ := { lanes := [] } }

/-- The loop of `replan` (lines 83-86) over the lanes still to visit: the engine
is called on each element in turn and leaves its result in place. -/
def replanLanes {R L : Type} (E : WaypointReplanner R L) : R → List L → R × List L
  | r, [] => (r, [])
  | r, el :: rest =>
    let step := E.replanLaneWaypointVel r el
    let tail := replanLanes E step.1 rest
    (tail.1, step.2 :: tail.2)

/-- The member function `WaypointReplannerNode::replan` (lines 81-87), which
works on the array it is given by reference. -/
def replan {R L : Type} (E : WaypointReplanner R L) (r : R)
    (lane_array : LaneArray L) : R × LaneArray L :=
  let res := replanLanes E r lane_array.lanes
  (res.1, { lane_array with lanes := res.2 })

/-- The member function `WaypointReplannerNode::withoutDecisionMaker`
(lines 89-94); `node_list` is what `ros::master::getNodes` answers. -/
def withoutDecisionMaker (node_list : List String) : Bool :=
  decide ("/decision_maker" ∉ node_list)

/-- The member function `WaypointReplannerNode::publishLaneArray` (lines 96-108). -/
def publishLaneArray {R L : Type} (E : WaypointReplanner R L)
    (n : WaypointReplannerNode R L) (node_list : List String) :
    WaypointReplannerNode R L × List (Publication L) :=
  let copy : LaneArray L := n.lane_array_
  let res : R × LaneArray L :=
    if n.replanning_mode_ then replan E n.replanner_ copy else (n.replanner_, copy)
  let array := res.2
  let sent := [publish "with_decision" array]
  let sent :=
    if withoutDecisionMaker node_list then sent ++ [publish "without_decision" array]
    else sent
  ({ n with replanner_ := res.1 }, sent)

/-- The member function `WaypointReplannerNode::laneCallback` (lines 110-114). -/
def laneCallback {R L : Type} (E : WaypointReplanner R L)
    (n : WaypointReplannerNode R L) (lane_array : LaneArray L)
    (node_list : List String) : WaypointReplannerNode R L × List (Publication L) :=
  publishLaneArray E { n with lane_array_ := lane_array } node_list

/-- The member function `WaypointReplannerNode::configCallback` (lines 116-126). -/
def configCallback {R L : Type} (E : WaypointReplanner R L)
    (n : WaypointReplannerNode R L) (conf : ConfigWaypointReplanner)
    (node_list : List String) : WaypointReplannerNode R L × List (Publication L) :=
  let n1 : WaypointReplannerNode R L :=
    { n with replanning_mode_ := conf.replanning_mode
             realtime_tuning_mode_ := conf.realtime_tuning_mode
             replanner_ := E.initParameter n.replanner_ conf }
  if n1.lane_array_.lanes.isEmpty || !n1.realtime_tuning_mode_ then (n1, [])
  else publishLaneArray E n1 node_list

/-- What `ros::spin` delivers to the node: a message on one of the two
subscriptions, with the node list the master would answer at that moment. -/
inductive Event (L : Type) where
  | lane (lane_array : LaneArray L) (node_list : List String)
  | config (conf : ConfigWaypointReplanner) (node_list : List String)

/-- One callback dispatched by `ros::spin`. -/
def dispatch {R L : Type} (E : WaypointReplanner R L) (n : WaypointReplannerNode R L) :
    Event L → WaypointReplannerNode R L × List (Publication L)
  | Event.lane lane_array node_list => laneCallback E n lane_array node_list
  | Event.config conf node_list => configCallback E n conf node_list

/-- The loop `ros::spin` of `main` (line 134) over a finite run of events: the
final node state and everything published, in order. -/
def spin {R L : Type} (E : WaypointReplanner R L) :
    WaypointReplannerNode R L → List (Event L) →
      WaypointReplannerNode R L × List (Publication L)
  | n, [] => (n, [])
  | n, e :: es =>
    let first := dispatch E n e
    let later := spin E first.1 es
    (later.1, first.2 ++ later.2)

/-- The inbound LaneArray of the last `lane` event of a run, or `start` when the
run has none. -/
def lastReceived {L : Type} (start : LaneArray L) : List (Event L) → LaneArray L
  | [] => start
  | Event.lane lane_array _ :: es => lastReceived lane_array es
  | Event.config _ _ :: es => lastReceived start es

/-- The engine state a run of `replanLanes` has reached just before it visits
lane number `i`. -/
def stateBefore {R L : Type} (E : WaypointReplanner R L) (r : R) (lanes : List L)
    (i : Nat) : R :=
  (replanLanes E r (lanes.take i)).1

/-- An engine that also records, in call order, every lane it is asked to
replan; it computes exactly what `E` computes. -/
def recording {R L : Type} (E : WaypointReplanner R L) :
    WaypointReplanner (R × List L) L :=
  { fresh := (E.fresh, [])
    kmph2mps := E.kmph2mps
    updateConfig := fun s c => (E.updateConfig s.1 c, s.2)
    initParameter := fun s conf => (E.initParameter s.1 conf, s.2)
    replanLaneWaypointVel := fun s el =>
      (((E.replanLaneWaypointVel s.1 el).1, s.2 ++ [el]), (E.replanLaneWaypointVel s.1 el).2) }

/-- The engine reads its Config and does not write it: `Installed c r` says that
`c` is the Config installed in engine state `r`; a call of
`replanLaneWaypointVel` leaves the installed Config installed, and the lane it
returns is the same in any two states with the same installed Config. -/
def ReadsConfig {R L C : Type} (E : WaypointReplanner R L) (Installed : C → R → Prop) :
    Prop :=
  ∀ c r el, Installed c r →
    Installed c (E.replanLaneWaypointVel r el).1 ∧
    ∀ r2, Installed c r2 →
      (E.replanLaneWaypointVel r2 el).2 = (E.replanLaneWaypointVel r el).2

/-! ## The node over an engine whose call may raise -/

/-- Modelled from the spec: the error an engine call can fail with (the error
taxonomy of the engine, which is not among the sources). Degenerate geometry and
empty input are not failures in the spec, so one error remains. -/
inductive ConfigError where
  | ConfigValidityError
deriving DecidableEq

namespace Raising

/-- How a member function of the node ends when the engine call may raise:
it returns, leaving the node state and having sent the messages listed; or an
exception escapes it after the messages listed were sent. The node has no
handler (none at lines 81-126, none in `main`), so a raised exception leaves the
callback. -/
inductive Outcome (R L : Type) where
  | returned (node : WaypointReplannerNode R L) (sent : List (Publication L))
  | raised (error : ConfigError) (sent : List (Publication L))

/-- The loop of `replan` (lines 83-86) when the call at line 85 may raise: the
first exception ends the loop. -/
def replanLanes {R L : Type} (call : R → L → Except ConfigError (R × L)) :
    R → List L → Except ConfigError (R × List L)
  | r, [] => Except.ok (r, [])
  | r, el :: rest =>
    match call r el with
    | Except.error e => Except.error e
    | Except.ok step =>
      match replanLanes call step.1 rest with
      | Except.error e => Except.error e
      | Except.ok tail => Except.ok (tail.1, step.2 :: tail.2)

/-- The member function `WaypointReplannerNode::replan` (lines 81-87) when the
engine call may raise. -/
def replan {R L : Type} (call : R → L → Except ConfigError (R × L)) (r : R)
    (lane_array : LaneArray L) : Except ConfigError (R × LaneArray L) :=
  match replanLanes call r lane_array.lanes with
  | Except.error e => Except.error e
  | Except.ok res => Except.ok (res.1, { lane_array with lanes := res.2 })

/-- The member function `WaypointReplannerNode::publishLaneArray` (lines 96-108)
when the engine call may raise: an exception out of `replan` (line 101) leaves
the function before the first `publish` (line 103). -/
def publishLaneArray {R L : Type} (call : R → L → Except ConfigError (R × L))
    (n : WaypointReplannerNode R L) (node_list : List String) : Outcome R L :=
  let copy : LaneArray L := n.lane_array_
  let res : Except ConfigError (R × LaneArray L) :=
    if n.replanning_mode_ then replan call n.replanner_ copy
    else Except.ok (n.replanner_, copy)
  match res with
  | Except.error e => Outcome.raised e []
  | Except.ok done =>
    let array := done.2
    let sent := [publish "with_decision" array]
    let sent :=
      if withoutDecisionMaker node_list then sent ++ [publish "without_decision" array]
      else sent
    Outcome.returned { n with replanner_ := done.1 } sent

/-- The member function `WaypointReplannerNode::laneCallback` (lines 110-114)
when the engine call may raise. -/
def laneCallback {R L : Type} (call : R → L → Except ConfigError (R × L))
    (n : WaypointReplannerNode R L) (lane_array : LaneArray L)
    (node_list : List String) : Outcome R L :=
  publishLaneArray call { n with lane_array_ := lane_array } node_list

end Raising

/-! ## Engines -/

/-- Modelled from the spec: the call `replanLaneWaypointVel` of the engine class
`WaypointReplanner`, which is not among the sources, with its failure path.
A lane with fewer than two waypoints is not replanned and is handed back
unchanged rather than failing. Otherwise the Resampler comes first and fails
with a configuration-validity error when resample mode is enabled and
resample_interval <= 0. The call reports the error to its caller: at line 85 the
caller takes no return value, so the error is an exception. `stages` stands for
the rest of the pipeline, which the spec leaves partly open and which may fail
on other invalid parameter combinations. The engine state is the active Config,
which the call reads and does not write. -/
def specReplanLaneWaypointVel
    (stages : WaypointReplannerConfig → Lane → Except ConfigError Lane)
    (cfg : WaypointReplannerConfig) (el : Lane) :
    Except ConfigError (WaypointReplannerConfig × Lane) :=
  if el.waypoints.length < 2 then Except.ok (cfg, el)
  else if cfg.resample_mode = true ∧ cfg.resample_interval ≤ 0 then
    Except.error ConfigError.ConfigValidityError
  else
    match stages cfg el with
    | Except.error e => Except.error e
    | Except.ok out => Except.ok (cfg, out)

/-- Modelled from the spec: the last step of the VelocityLimiter on a whole lane,
every waypoint velocity clipped into the global bounds and the waypoint flagged
as replanned (the engine is not among the sources). -/
def clipLane (cfg : WaypointReplannerConfig) (el : Lane) : Lane :=
  { waypoints := el.waypoints.map fun w =>
      { w with velocity := max cfg.velocity_min (min cfg.velocity_max w.velocity)
               change_flag := true } }

/-- Modelled from the spec: a small engine standing in for the class
`WaypointReplanner`, which is not among the sources, on Configs with resampling
off. Its state is the active Config; `updateConfig` and `initParameter` replace
it wholesale (the velocity bounds of an update are converted from km/h like the
startup parameters); `replanLaneWaypointVel` hands a lane of fewer than two
waypoints back unchanged and clips every other lane with `clipLane`, without
touching the Config. Its call always returns: the failure of the Resampler is
modelled by `specReplanLaneWaypointVel`, with which it agrees wherever resampling
is off. -/
def clipEngine : WaypointReplanner WaypointReplannerConfig Lane :=
  { fresh :=
      { velocity_max := 0, velocity_min := 0, accel_limit := 0, decel_limit := 0,
        radius_thresh := 0, radius_min := 0, resample_mode := false,
        resample_interval := 0, replan_curve_mode := false,
        replan_endpoint_mode := false, overwrite_vmax_mode := false,
        velocity_offset := 0, end_point_offset := 0, braking_distance := 0 }
    kmph2mps := fun v => v * 1000 / 3600
    updateConfig := fun _ c => c
    initParameter := fun _ conf =>
      { velocity_max := conf.velocity_max * 1000 / 3600
        velocity_min := conf.velocity_min * 1000 / 3600
        accel_limit := conf.accel_limit
        decel_limit := conf.decel_limit
        radius_thresh := conf.radius_thresh
        radius_min := conf.radius_min
        resample_mode := conf.resample_mode
        resample_interval := conf.resample_interval
        replan_curve_mode := conf.replan_curve_mode
        replan_endpoint_mode := conf.replan_endpoint_mode
        overwrite_vmax_mode := conf.overwrite_vmax_mode
        velocity_offset := conf.velocity_offset
        end_point_offset := conf.end_point_offset
        braking_distance := conf.braking_distance }
    replanLaneWaypointVel := fun cfg el =>
      if el.waypoints.length < 2 then (cfg, el) else (cfg, clipLane cfg el) }

/-- The messages a list of publications carries on one topic, in order. -/
def sentOn {L : Type} (topic : String) (sent : List (Publication L)) : List (LaneArray L) :=
  (sent.filter fun p => decide (p.topic = topic)).map fun p => p.msg

/-- The node `n` run over the recording engine, starting from the call log `log`. -/
def recordingNode {R L : Type} (n : WaypointReplannerNode R L) (log : List L) :
    WaypointReplannerNode (R × List L) L :=
  { replanning_mode_ := n.replanning_mode_
    realtime_tuning_mode_ := n.realtime_tuning_mode_
    replanner_ := (n.replanner_, log)
    lane_array_ := n.lane_array_ }

/-- A waypoint at the origin with target velocity `v`, not yet replanned. -/
def waypointAt (v : ℚ) : Waypoint :=
  { x := 0, y := 0, yaw := 0, velocity := v, change_flag := false }

/-- A LaneArray of one lane with two waypoints, at 50 m/s and at 3 m/s. -/
def fastArray : LaneArray Lane :=
  { lanes := [{ waypoints := [waypointAt 50, waypointAt 3] }] }

/-- The node right after construction over `clipEngine`, no parameter set. -/
def startupNode : WaypointReplannerNode WaypointReplannerConfig Lane :=
  WaypointReplannerNode.construct clipEngine noParams

/-- A config update with bounds 0 and 36 km/h and the two given mode flags. -/
def tuningUpdate (replanning realtime : Bool) : ConfigWaypointReplanner :=
  { replanning_mode := replanning, realtime_tuning_mode := realtime,
    velocity_max := 36, velocity_min := 0, accel_limit := 1, decel_limit := 1,
    radius_thresh := 20, radius_min := 6, resample_mode := false,
    resample_interval := 1, replan_curve_mode := false, replan_endpoint_mode := false,
    overwrite_vmax_mode := false, velocity_offset := 4, end_point_offset := 1,
    braking_distance := 5 }

/-- The node after it has received `fastArray` right after startup. -/
def nodeAfterFastArray : WaypointReplannerNode WaypointReplannerConfig Lane :=
  (laneCallback clipEngine startupNode fastArray []).1

/-- The array `fastArray` as `clipEngine` leaves it under bounds 0 and 10 m/s. -/
def fastArrayClipped : LaneArray Lane :=
  { lanes := [{ waypoints := [{ waypointAt 10 with change_flag := true },
                              { waypointAt 3 with change_flag := true }] }] }

/-- The rest of the pipeline taken as the clip alone, which never fails. -/
def clipStages (cfg : WaypointReplannerConfig) (el : Lane) : Except ConfigError Lane :=
  Except.ok (clipLane cfg el)

/-! ## Lemmas on the loop of `replan` -/

section Lemmas

variable {R L : Type}

theorem replanLanes_length (E : WaypointReplanner R L) (r : R) (lanes : List L) :
    (replanLanes E r lanes).2.length = lanes.length := by
  induction lanes generalizing r with
  | nil => rfl
  | cons el rest ih => simp [replanLanes, ih]

theorem stateBefore_zero (E : WaypointReplanner R L) (r : R) (lanes : List L) :
    stateBefore E r lanes 0 = r := by
  simp [stateBefore, replanLanes]

theorem stateBefore_succ (E : WaypointReplanner R L) (r : R) (el : L) (rest : List L)
    (i : Nat) :
    stateBefore E r (el :: rest) (i + 1) =
      stateBefore E (E.replanLaneWaypointVel r el).1 rest i := by
  simp [stateBefore, replanLanes]

theorem replanLanes_getElem? (E : WaypointReplanner R L) (r : R) (lanes : List L) (i : Nat) :
    (replanLanes E r lanes).2[i]? =
      (lanes[i]?).map fun el => (E.replanLaneWaypointVel (stateBefore E r lanes i) el).2 := by
  induction lanes generalizing r i with
  | nil => simp [replanLanes]
  | cons el rest ih =>
    cases i with
    | zero => simp [replanLanes, stateBefore_zero]
    | succ j => simp [replanLanes, stateBefore_succ, ih]

theorem replanLanes_readsConfig {C : Type} (E : WaypointReplanner R L)
    (Installed : C → R → Prop) (hE : ReadsConfig E Installed) (c : C) (r r0 : R)
    (hr : Installed c r) (hr0 : Installed c r0) (lanes : List L) :
    Installed c (replanLanes E r lanes).1 ∧
      (replanLanes E r lanes).2 = lanes.map fun el => (E.replanLaneWaypointVel r0 el).2 := by
  induction lanes generalizing r with
  | nil => exact ⟨hr, rfl⟩
  | cons el rest ih =>
    have h1 := hE c r el hr
    have h2 := ih (E.replanLaneWaypointVel r el).1 h1.1
    refine ⟨h2.1, ?_⟩
    simp only [replanLanes, List.map_cons, h2.2]
    rw [(hE c r0 el hr0).2 r hr]

theorem publishLaneArray_lane_array_ (E : WaypointReplanner R L)
    (n : WaypointReplannerNode R L) (node_list : List String) :
    (publishLaneArray E n node_list).1.lane_array_ = n.lane_array_ := rfl

theorem laneCallback_lane_array_ (E : WaypointReplanner R L)
    (n : WaypointReplannerNode R L) (lane_array : LaneArray L) (node_list : List String) :
    (laneCallback E n lane_array node_list).1.lane_array_ = lane_array := rfl

theorem configCallback_lane_array_ (E : WaypointReplanner R L)
    (n : WaypointReplannerNode R L) (conf : ConfigWaypointReplanner)
    (node_list : List String) :
    (configCallback E n conf node_list).1.lane_array_ = n.lane_array_ := by
  unfold configCallback
  dsimp only
  split <;> rfl

theorem publishLaneArray_msg (E : WaypointReplanner R L)
    (n : WaypointReplannerNode R L) (node_list : List String) (p : Publication L)
    (hp : p ∈ (publishLaneArray E n node_list).2) :
    p.msg = (if n.replanning_mode_ then replan E n.replanner_ n.lane_array_
      else (n.replanner_, n.lane_array_)).2 := by
  unfold publishLaneArray at hp
  dsimp only at hp
  split at hp
  · simp only [List.singleton_append, List.mem_cons, List.mem_singleton, List.not_mem_nil,
      or_false] at hp
    rcases hp with h | h <;> rw [h] <;> rfl
  · simp only [List.mem_singleton] at hp
    rw [hp]; rfl

theorem publishLaneArray_ne_nil (E : WaypointReplanner R L)
    (n : WaypointReplannerNode R L) (node_list : List String) :
    (publishLaneArray E n node_list).2 ≠ [] := by
  unfold publishLaneArray
  dsimp only
  split <;> simp

theorem publishLaneArray_sent (E : WaypointReplanner R L)
    (n : WaypointReplannerNode R L) (node_list : List String) :
    (publishLaneArray E n node_list).2 =
      publish "with_decision" (if n.replanning_mode_ then replan E n.replanner_ n.lane_array_
        else (n.replanner_, n.lane_array_)).2 ::
      (if withoutDecisionMaker node_list then
        [publish "without_decision" (if n.replanning_mode_ then
          replan E n.replanner_ n.lane_array_ else (n.replanner_, n.lane_array_)).2]
       else []) := by
  unfold publishLaneArray
  dsimp only
  split <;> rfl

theorem publishLaneArray_replanner_ (E : WaypointReplanner R L)
    (n : WaypointReplannerNode R L) (node_list : List String) :
    (publishLaneArray E n node_list).1.replanner_ =
      (if n.replanning_mode_ then replan E n.replanner_ n.lane_array_
        else (n.replanner_, n.lane_array_)).1 := rfl

theorem sentOn_primary_publishLaneArray (E : WaypointReplanner R L)
    (n : WaypointReplannerNode R L) (node_list : List String) :
    sentOn "/based/lane_waypoints_array" (publishLaneArray E n node_list).2 =
      [(if n.replanning_mode_ then replan E n.replanner_ n.lane_array_
        else (n.replanner_, n.lane_array_)).2] := by
  have hk1 : lane_pub_ "with_decision" = "/based/lane_waypoints_array" := by decide
  have hk2 : lane_pub_ "without_decision" = "/lane_waypoints_array" := by decide
  have hne : ("/lane_waypoints_array" : String) ≠ "/based/lane_waypoints_array" := by decide
  rw [publishLaneArray_sent]
  split <;> simp [sentOn, publish, hk1, hk2, hne]

theorem configCallback_triggered (E : WaypointReplanner R L)
    (n : WaypointReplannerNode R L) (conf : ConfigWaypointReplanner)
    (node_list : List String) (hlane : n.lane_array_.lanes ≠ [])
    (hrt : conf.realtime_tuning_mode = true) :
    configCallback E n conf node_list =
      publishLaneArray E
        { n with replanning_mode_ := conf.replanning_mode
                 realtime_tuning_mode_ := conf.realtime_tuning_mode
                 replanner_ := E.initParameter n.replanner_ conf } node_list := by
  simp [configCallback, hlane, hrt]

theorem configCallback_silent (E : WaypointReplanner R L)
    (n : WaypointReplannerNode R L) (conf : ConfigWaypointReplanner)
    (node_list : List String)
    (h : n.lane_array_.lanes = [] ∨ conf.realtime_tuning_mode = false) :
    configCallback E n conf node_list =
      ({ n with replanning_mode_ := conf.replanning_mode
                realtime_tuning_mode_ := conf.realtime_tuning_mode
                replanner_ := E.initParameter n.replanner_ conf }, []) := by
  rcases h with h | h <;> simp [configCallback, h]

theorem clipEngine_readsConfig {C : Type} (f : C → WaypointReplannerConfig) :
    ReadsConfig clipEngine (fun c r => r = f c) := by
  intro c r el hr
  have hst : ∀ (r0 : WaypointReplannerConfig) (el0 : Lane),
      (clipEngine.replanLaneWaypointVel r0 el0).1 = r0 := by
    intro r0 el0
    simp only [clipEngine]
    split <;> rfl
  refine ⟨by rw [hst]; exact hr, ?_⟩
  intro r2 h2
  rw [h2, hr]

theorem clipEngine_agrees_with_spec (cfg : WaypointReplannerConfig) (el : Lane)
    (hoff : cfg.resample_mode = false) :
    specReplanLaneWaypointVel clipStages cfg el =
      Except.ok (clipEngine.replanLaneWaypointVel cfg el) := by
  by_cases hs : el.waypoints.length < 2 <;>
    simp [specReplanLaneWaypointVel, clipStages, clipEngine, hs, hoff]

theorem raising_replanLanes_total (E : WaypointReplanner R L) (r : R) (lanes : List L) :
    Raising.replanLanes (fun r0 el => Except.ok (E.replanLaneWaypointVel r0 el)) r lanes =
      Except.ok (replanLanes E r lanes) := by
  induction lanes generalizing r with
  | nil => rfl
  | cons el rest ih => simp [Raising.replanLanes, replanLanes, ih]

theorem raising_publishLaneArray_total (E : WaypointReplanner R L)
    (n : WaypointReplannerNode R L) (node_list : List String) :
    Raising.publishLaneArray (fun r0 el => Except.ok (E.replanLaneWaypointVel r0 el)) n
        node_list =
      Raising.Outcome.returned (publishLaneArray E n node_list).1
        (publishLaneArray E n node_list).2 := by
  cases hrp : n.replanning_mode_ <;>
    simp [Raising.publishLaneArray, Raising.replan, publishLaneArray, replan, hrp,
      raising_replanLanes_total]

end Lemmas

/-! ## Claims -/

section Claims

variable {R L : Type}

/-- C2: a config update that arrives while the retained LaneArray is still empty
publishes nothing on either topic, leaves the retained LaneArray as it is, and
does not run a replan: the engine is left in the state `initParameter` produced
and, over the recording engine, the log of replanned lanes does not grow. -/
theorem configCallback_before_first_lane (E : WaypointReplanner R L)
    (n : WaypointReplannerNode R L) (conf : ConfigWaypointReplanner)
    (node_list : List String) (hempty : n.lane_array_.lanes = []) :
    (configCallback E n conf node_list).2 = [] ∧
    sentOn "/based/lane_waypoints_array" (configCallback E n conf node_list).2 = [] ∧
    sentOn "/lane_waypoints_array" (configCallback E n conf node_list).2 = [] ∧
    (configCallback E n conf node_list).1.lane_array_ = n.lane_array_ ∧
    (configCallback E n conf node_list).1.replanner_ = E.initParameter n.replanner_ conf ∧
    ∀ log : List L,
      ((configCallback (recording E) (recordingNode n log) conf node_list).1.replanner_).2 =
        log := by
  have h1 : configCallback E n conf node_list =
      ({ n with replanning_mode_ := conf.replanning_mode
                realtime_tuning_mode_ := conf.realtime_tuning_mode
                replanner_ := E.initParameter n.replanner_ conf }, []) := by
    simp [configCallback, hempty]
  have h2 : ∀ log : List L,
      configCallback (recording E) (recordingNode n log) conf node_list =
        ({ recordingNode n log with
            replanning_mode_ := conf.replanning_mode
            realtime_tuning_mode_ := conf.realtime_tuning_mode
            replanner_ := (recording E).initParameter (n.replanner_, log) conf }, []) := by
    intro log
    simp [configCallback, recordingNode, hempty]
  refine ⟨by rw [h1], by rw [h1]; rfl, by rw [h1]; rfl, by rw [h1], by rw [h1], ?_⟩
  intro log
  rw [h2 log]
  rfl

/-- Witness of C2 at the node right after construction. -/
theorem configCallback_before_first_lane_witness :
    startupNode.lane_array_.lanes = [] ∧
    (configCallback clipEngine startupNode (tuningUpdate true true) []).2 = [] :=
  ⟨rfl, (configCallback_before_first_lane clipEngine startupNode (tuningUpdate true true) []
    rfl).1⟩

/-- C3: the retained LaneArray is the last inbound LaneArray as received:
`laneCallback` stores the inbound array itself, `configCallback` (with the
publication it may trigger) leaves the retained array as it is, and after any run
of events the retained array is the array of the last lane event. -/
theorem retained_is_last_received (E : WaypointReplanner R L) :
    (∀ (n : WaypointReplannerNode R L) (lane_array : LaneArray L) (node_list : List String),
      (laneCallback E n lane_array node_list).1.lane_array_ = lane_array) ∧
    (∀ (n : WaypointReplannerNode R L) (conf : ConfigWaypointReplanner)
      (node_list : List String),
      (configCallback E n conf node_list).1.lane_array_ = n.lane_array_) ∧
    (∀ (n : WaypointReplannerNode R L) (node_list : List String),
      (publishLaneArray E n node_list).1.lane_array_ = n.lane_array_) ∧
    (∀ (events : List (Event L)) (n : WaypointReplannerNode R L),
      (spin E n events).1.lane_array_ = lastReceived n.lane_array_ events) := by
  refine ⟨laneCallback_lane_array_ E, configCallback_lane_array_ E,
    publishLaneArray_lane_array_ E, ?_⟩
  intro events
  induction events with
  | nil => intro n; rfl
  | cons e es ih =>
    intro n
    cases e with
    | lane lane_array node_list =>
      simp only [spin, lastReceived, dispatch]
      rw [ih, laneCallback_lane_array_]
    | config conf node_list =>
      simp only [spin, lastReceived, dispatch]
      rw [ih, configCallback_lane_array_]

/-- C9: a config update publishes exactly when the retained LaneArray has a lane
and the update itself carries realtime_tuning_mode = true; the flag the node
held before plays no role; and after an inbound LaneArray with no lanes an
update publishes nothing, as before any LaneArray. -/
theorem configCallback_publishes_iff (E : WaypointReplanner R L)
    (n : WaypointReplannerNode R L) (conf : ConfigWaypointReplanner)
    (node_list : List String) :
    ((configCallback E n conf node_list).2 ≠ [] ↔
      (n.lane_array_.lanes ≠ [] ∧ conf.realtime_tuning_mode = true)) ∧
    (∀ previous : Bool,
      (configCallback E { n with realtime_tuning_mode_ := previous } conf node_list).2 =
        (configCallback E n conf node_list).2) ∧
    (∀ earlier : List String,
      (configCallback E (laneCallback E n { lanes := [] } earlier).1 conf node_list).2 = []) := by
  refine ⟨?_, ?_, ?_⟩
  · unfold configCallback
    dsimp only
    split
    · rename_i h
      simp only [Bool.or_eq_true, List.isEmpty_iff, Bool.not_eq_true'] at h
      constructor
      · intro hne; exact absurd rfl hne
      · rintro ⟨h1, h2⟩
        rcases h with h | h
        · exact absurd h h1
        · rw [h2] at h; exact absurd h (by decide)
    · rename_i h
      simp only [Bool.or_eq_true, List.isEmpty_iff, Bool.not_eq_true', not_or] at h
      constructor
      · intro _; exact ⟨h.1, by simpa using h.2⟩
      · intro _; exact publishLaneArray_ne_nil E _ node_list
  · intro previous; rfl
  · intro earlier
    have h : (laneCallback E n { lanes := [] } earlier).1.lane_array_.lanes = [] := by
      rw [laneCallback_lane_array_]
    simp [configCallback, h]

/-- C7: the presence of "/decision_maker" in the node list decides only whether
the secondary topic is used. Every call of `publishLaneArray` sends exactly one
LaneArray on "/based/lane_waypoints_array"; it sends the same LaneArray once on
"/lane_waypoints_array" exactly when "/decision_maker" is absent from the node
list, and nothing there otherwise; nothing goes to any other topic; and the
array sent and the node state left behind do not depend on the node list. -/
theorem decision_maker_gates_secondary_only (E : WaypointReplanner R L)
    (n : WaypointReplannerNode R L) :
    ∃ array : LaneArray L, ∃ after : WaypointReplannerNode R L,
      ∀ node_list : List String,
        sentOn "/based/lane_waypoints_array" (publishLaneArray E n node_list).2 = [array] ∧
        (sentOn "/lane_waypoints_array" (publishLaneArray E n node_list).2 = [array] ↔
          "/decision_maker" ∉ node_list) ∧
        (sentOn "/lane_waypoints_array" (publishLaneArray E n node_list).2 = [] ↔
          "/decision_maker" ∈ node_list) ∧
        (∀ p ∈ (publishLaneArray E n node_list).2,
          p.topic = "/based/lane_waypoints_array" ∨ p.topic = "/lane_waypoints_array") ∧
        (publishLaneArray E n node_list).1 = after := by
  refine ⟨(if n.replanning_mode_ then replan E n.replanner_ n.lane_array_
      else (n.replanner_, n.lane_array_)).2,
    { n with replanner_ := (if n.replanning_mode_ then replan E n.replanner_ n.lane_array_
      else (n.replanner_, n.lane_array_)).1 }, ?_⟩
  intro node_list
  have hk1 : lane_pub_ "with_decision" = "/based/lane_waypoints_array" := by decide
  have hk2 : lane_pub_ "without_decision" = "/lane_waypoints_array" := by decide
  have hne : ("/lane_waypoints_array" : String) ≠ "/based/lane_waypoints_array" := by decide
  by_cases hdm : "/decision_maker" ∈ node_list
  · have hw : withoutDecisionMaker node_list = false := by simp [withoutDecisionMaker, hdm]
    simp [publishLaneArray, hw, sentOn, publish, hk1, hdm, hne.symm]
  · have hw : withoutDecisionMaker node_list = true := by simp [withoutDecisionMaker, hdm]
    simp [publishLaneArray, hw, sentOn, publish, hk1, hk2, hdm, hne, hne.symm]

/-- C8: with replanning_mode off, which is the startup value when the parameter
is not set, a publication passes the retained LaneArray through: every message
sent is the retained LaneArray itself, at least one is sent, and the engine is
not called (the node, its engine state included, is left as it was, and over the
recording engine the log of replanned lanes does not grow). -/
theorem passthrough_when_replanning_off (E : WaypointReplanner R L)
    (n : WaypointReplannerNode R L) (node_list : List String)
    (hoff : n.replanning_mode_ = false) :
    (∀ p ∈ (publishLaneArray E n node_list).2, p.msg = n.lane_array_) ∧
    (publishLaneArray E n node_list).2 ≠ [] ∧
    (publishLaneArray E n node_list).1 = n ∧
    (∀ log : List L,
      ((publishLaneArray (recording E) (recordingNode n log) node_list).1.replanner_).2 = log) ∧
    (∀ p : NodeParams, p.replanning_mode = none →
      (WaypointReplannerNode.construct E p).replanning_mode_ = false) := by
  refine ⟨?_, publishLaneArray_ne_nil E n node_list, ?_, ?_, ?_⟩
  · intro p hp
    rw [publishLaneArray_msg E n node_list p hp, hoff]
    rfl
  · cases n with
    | mk rp rt r arr =>
      simp only at hoff
      subst hoff
      simp [publishLaneArray]
  · intro log
    simp [publishLaneArray, recordingNode, hoff]
  · intro p hp
    simp [WaypointReplannerNode.construct, hp, param]

/-- Witness of C8: the node constructed with no parameter set, after it has
received `fastArray`, publishes `fastArray` itself. -/
theorem passthrough_when_replanning_off_witness :
    nodeAfterFastArray.replanning_mode_ = false ∧
    ∀ p ∈ (publishLaneArray clipEngine nodeAfterFastArray []).2,
      p.msg = nodeAfterFastArray.lane_array_ :=
  ⟨rfl, (passthrough_when_replanning_off clipEngine nodeAfterFastArray [] rfl).1⟩

/-- C1 (amended): when a LaneArray with at least one lane has been received and a
config update carries realtime_tuning_mode = true and replanning_mode = true,
`configCallback` publishes the retained LaneArray replanned after `initParameter`
has installed the update: one message on the primary topic, every message sent
being `replan` of the retained array started from the engine state
`initParameter` produced, with as many lanes, lane `i` being what
`replanLaneWaypointVel` returns on lane `i` of the retained array. -/
theorem configCallback_republishes_replanned (E : WaypointReplanner R L)
    (n : WaypointReplannerNode R L) (conf : ConfigWaypointReplanner)
    (node_list : List String) (hlane : n.lane_array_.lanes ≠ [])
    (hrt : conf.realtime_tuning_mode = true) (hrp : conf.replanning_mode = true) :
    (configCallback E n conf node_list).2 ≠ [] ∧
    sentOn "/based/lane_waypoints_array" (configCallback E n conf node_list).2 =
      [(replan E (E.initParameter n.replanner_ conf) n.lane_array_).2] ∧
    ∀ p ∈ (configCallback E n conf node_list).2,
      p.msg = (replan E (E.initParameter n.replanner_ conf) n.lane_array_).2 ∧
      p.msg.lanes.length = n.lane_array_.lanes.length ∧
      ∀ i : Nat, p.msg.lanes[i]? = (n.lane_array_.lanes[i]?).map fun el =>
        (E.replanLaneWaypointVel
          (stateBefore E (E.initParameter n.replanner_ conf) n.lane_array_.lanes i) el).2 := by
  rw [configCallback_triggered E n conf node_list hlane hrt]
  refine ⟨publishLaneArray_ne_nil E _ node_list, ?_, ?_⟩
  · rw [sentOn_primary_publishLaneArray]
    simp [hrp]
  · intro p hp
    have hmsg := publishLaneArray_msg E _ node_list p hp
    simp only [hrp, if_true] at hmsg
    refine ⟨hmsg, ?_, ?_⟩
    · rw [hmsg]; exact replanLanes_length E _ _
    · intro i
      rw [hmsg]; exact replanLanes_getElem? E _ _ i

/-- Witness of C1 (amended): after `fastArray` was received, an update with both
flags on republishes it. -/
theorem configCallback_republishes_replanned_witness :
    nodeAfterFastArray.lane_array_.lanes ≠ [] ∧
    (tuningUpdate true true).realtime_tuning_mode = true ∧
    (tuningUpdate true true).replanning_mode = true ∧
    (configCallback clipEngine nodeAfterFastArray (tuningUpdate true true) []).2 ≠ [] :=
  ⟨by decide, rfl, rfl,
    (configCallback_republishes_replanned clipEngine nodeAfterFastArray
      (tuningUpdate true true) [] (by decide) rfl rfl).1⟩

/-- C1 as stated fails: after `fastArray` (waypoints at 50 and 3 m/s) was received,
an update with realtime_tuning_mode = true, replanning_mode = false and
velocity_max = 36 km/h makes `configCallback` publish `fastArray` as received,
whereas replanning it after `initParameter` clips the first waypoint to 10 m/s. -/
theorem configCallback_update_with_replanning_off :
    nodeAfterFastArray.lane_array_.lanes ≠ [] ∧
    (tuningUpdate false true).realtime_tuning_mode = true ∧
    (configCallback clipEngine nodeAfterFastArray (tuningUpdate false true) []).2 =
      [publish "with_decision" fastArray, publish "without_decision" fastArray] ∧
    (replan clipEngine
      (clipEngine.initParameter nodeAfterFastArray.replanner_ (tuningUpdate false true))
      nodeAfterFastArray.lane_array_).2 = fastArrayClipped ∧
    fastArray ≠ fastArrayClipped := by
  refine ⟨by decide, rfl, ?_, ?_, by decide⟩
  · rfl
  · simp [replan, replanLanes, clipEngine, clipLane, tuningUpdate, nodeAfterFastArray,
      laneCallback, publishLaneArray, fastArray, fastArrayClipped, waypointAt]
    norm_num

/-- C10: when the engine is a function of the installed Config and the lane
(`initParameter` installs the update, `replanLaneWaypointVel` reads the
installed Config and leaves it installed), delivering the same config update
twice in a row, with the same answer on the presence of the decision maker,
publishes the second time what was published the first time, and the retained
LaneArray is the raw one throughout. -/
theorem same_update_twice_publishes_same (E : WaypointReplanner R L)
    (Installed : ConfigWaypointReplanner → R → Prop)
    (hinit : ∀ r conf, Installed conf (E.initParameter r conf))
    (hE : ReadsConfig E Installed)
    (n : WaypointReplannerNode R L) (conf : ConfigWaypointReplanner)
    (nodes1 nodes2 : List String)
    (hsame : withoutDecisionMaker nodes1 = withoutDecisionMaker nodes2) :
    (configCallback E (configCallback E n conf nodes1).1 conf nodes2).2 =
      (configCallback E n conf nodes1).2 ∧
    (configCallback E n conf nodes1).1.lane_array_ = n.lane_array_ ∧
    (configCallback E (configCallback E n conf nodes1).1 conf nodes2).1.lane_array_ =
      n.lane_array_ := by
  refine ⟨?_, configCallback_lane_array_ E n conf nodes1, ?_⟩
  swap
  · rw [configCallback_lane_array_, configCallback_lane_array_]
  by_cases hsil : n.lane_array_.lanes = [] ∨ conf.realtime_tuning_mode = false
  · have h1 := configCallback_silent E n conf nodes1 hsil
    have hsil2 : (configCallback E n conf nodes1).1.lane_array_.lanes = [] ∨
        conf.realtime_tuning_mode = false := by
      rw [configCallback_lane_array_]; exact hsil
    rw [configCallback_silent E _ conf nodes2 hsil2, h1]
  · have hlane : n.lane_array_.lanes ≠ [] := fun h => hsil (Or.inl h)
    have hrt : conf.realtime_tuning_mode = true := by
      cases h : conf.realtime_tuning_mode
      · exact absurd (Or.inr h) hsil
      · rfl
    have hlane2 : (configCallback E n conf nodes1).1.lane_array_.lanes ≠ [] := by
      rw [configCallback_lane_array_]; exact hlane
    rw [configCallback_triggered E _ conf nodes2 hlane2 hrt, publishLaneArray_sent,
      configCallback_lane_array_]
    rw [configCallback_triggered E n conf nodes1 hlane hrt, publishLaneArray_sent, hsame]
    dsimp only
    cases hrp : conf.replanning_mode
    · simp
    · have key : ∀ r2 : R, (replan E (E.initParameter r2 conf) n.lane_array_).2 =
          (replan E (E.initParameter n.replanner_ conf) n.lane_array_).2 := by
        intro r2
        have h := (replanLanes_readsConfig E Installed hE conf (E.initParameter r2 conf)
          (E.initParameter n.replanner_ conf) (hinit r2 conf) (hinit n.replanner_ conf)
          n.lane_array_.lanes).2
        have h0 := (replanLanes_readsConfig E Installed hE conf
          (E.initParameter n.replanner_ conf) (E.initParameter n.replanner_ conf)
          (hinit n.replanner_ conf) (hinit n.replanner_ conf) n.lane_array_.lanes).2
        simp only [replan]
        rw [h, h0]
      simp only [if_true]
      rw [key]

/-- Witness of C10: `clipEngine` is a function of the installed Config and the
lane, and an update delivered twice after `fastArray` publishes the same. -/
theorem same_update_twice_publishes_same_witness :
    (∀ r conf, clipEngine.initParameter r conf = clipEngine.initParameter clipEngine.fresh conf) ∧
    withoutDecisionMaker [] = withoutDecisionMaker ["/rosout"] ∧
    (configCallback clipEngine
      (configCallback clipEngine nodeAfterFastArray (tuningUpdate true true) []).1
      (tuningUpdate true true) ["/rosout"]).2 =
      (configCallback clipEngine nodeAfterFastArray (tuningUpdate true true) []).2 :=
  ⟨fun _ _ => rfl, by decide,
    (same_update_twice_publishes_same clipEngine
      (fun conf r => r = clipEngine.initParameter clipEngine.fresh conf)
      (fun _ _ => rfl)
      (clipEngine_readsConfig fun conf => clipEngine.initParameter clipEngine.fresh conf)
      nodeAfterFastArray (tuningUpdate true true) [] ["/rosout"] (by decide)).1⟩

end Claims

end waypoint_maker
